import Mathlib

/-!
Verification of the migration registry of the neuronotes repository
(src/src-tauri/src/main.rs).  The source declares, as literal data, a list
of three SQL schema migrations and registers that list for two logical
SQLite databases.  We embed the SQL DDL statements of the migration
scripts as an abstract syntax tree, give them their SQLite semantics on
an explicit schema value, and prove the properties of the specification
about the resulting schemas.
-/

namespace NeuroNotes

/-- SQLite column types occurring in the scripts. -/
inductive ColType where
  | text
  | integer
  deriving DecidableEq

/-- SQLite values, as far as the scripts and the NOT NULL / DEFAULT
semantics need them. -/
inductive SqlValue where
  | null
  | text (s : String)
  | int (n : Int)
  deriving DecidableEq

/-- A column declaration as written in a CREATE TABLE or ADD COLUMN
clause: name, type, PRIMARY KEY flag, NOT NULL flag, DEFAULT value. -/
structure ColumnDef where
  name : String
  type : ColType
  primaryKey : Bool
  notNull : Bool
  dflt : Option SqlValue
  deriving DecidableEq

/-- Column written `<n> TEXT PRIMARY KEY`. -/
def textPK (n : String) : ColumnDef := ⟨n, ColType.text, true, false, none⟩

/-- Column written `<n> TEXT NOT NULL`. -/
def textNotNull (n : String) : ColumnDef := ⟨n, ColType.text, false, true, none⟩

/-- Column written `<n> TEXT` (nullable). -/
def textNullable (n : String) : ColumnDef := ⟨n, ColType.text, false, false, none⟩

/-- Column written `<n> INTEGER NOT NULL DEFAULT 0`. -/
def intNotNullDefault0 (n : String) : ColumnDef :=
  ⟨n, ColType.integer, false, true, some (SqlValue.int 0)⟩

/-- Column written `<n> INTEGER NOT NULL`. -/
def intNotNull (n : String) : ColumnDef := ⟨n, ColType.integer, false, true, none⟩

/-- Column written `<n> TEXT NOT NULL DEFAULT '<s>'`. -/
def textNotNullDefault (n s : String) : ColumnDef :=
  ⟨n, ColType.text, false, true, some (SqlValue.text s)⟩

/-- A table of the database schema: its name and its ordered columns. -/
structure Table where
  name : String
  cols : List ColumnDef
  deriving DecidableEq

/-- A database schema: the ordered list of its tables. -/
abbrev Schema := List Table

/-- The DDL statements occurring in the migration scripts. -/
inductive Stmt where
  | createTableIfNotExists (name : String) (cols : List ColumnDef)
  | alterTableAddColumn (table : String) (c : ColumnDef)
  deriving DecidableEq

/-- Errors SQLite raises on the statements above. -/
inductive SqlError where
  | duplicateColumn (table col : String)
  | noSuchTable (table : String)
  deriving DecidableEq

/-- SQLite semantics of one DDL statement on a schema.
CREATE TABLE IF NOT EXISTS is a no-op when the table exists; ALTER TABLE
ADD COLUMN fails when the table is missing or already has the column. -/
def applyStmt (db : Schema) : Stmt → Except SqlError Schema
  | Stmt.createTableIfNotExists n cs =>
      if db.any (fun t => t.name == n) then Except.ok db
      else Except.ok (db ++ [⟨n, cs⟩])
  | Stmt.alterTableAddColumn n c =>
      match db.find? (fun t => t.name == n) with
      | none => Except.error (SqlError.noSuchTable n)
      | some t =>
          if t.cols.any (fun cd => cd.name == c.name) then
            Except.error (SqlError.duplicateColumn n c.name)
          else
            Except.ok (db.map (fun u =>
              if u.name == n then ⟨u.name, u.cols ++ [c]⟩ else u))

/-- Run a script (a list of DDL statements) in order, stopping at the
first error. -/
def applyScript (db : Schema) : List Stmt → Except SqlError Schema
  | [] => Except.ok db
  | s :: rest => Except.bind (applyStmt db s) (fun db2 => applyScript db2 rest)

/-- Direction of a migration, as in tauri_plugin_sql::MigrationKind. -/
inductive MigrationKind where
  | Up
  | Down
  deriving DecidableEq

/-- A migration record, as in tauri_plugin_sql::Migration.  The record
has exactly these four fields; in particular there is no field for a
separate "down" script. -/
structure Migration where
  version : Nat
  description : String
  sql : List Stmt
  kind : MigrationKind
  deriving DecidableEq

/-- Columns of the workspaces table as created by v1. -/
def workspaces_cols : List ColumnDef :=
  [textPK "id", textNotNull "name", intNotNullDefault0 "order"]

/-- Columns of the folders table as created by v1. -/
def folders_cols : List ColumnDef :=
  [textPK "id", textNotNull "name", textNotNull "workspace_id",
   intNotNullDefault0 "order"]

/-- Columns of the notes table as created by v1. -/
def notes_cols : List ColumnDef :=
  [textPK "id", textNotNull "title", textNullable "content_html",
   intNotNull "updated_at", textNotNull "workspace_id",
   textNullable "folder_id", intNotNullDefault0 "order",
   textNotNullDefault "type" "text", textNullable "spreadsheet"]

/-- Columns of the calendarEvents table as created by v1. -/
def calendarEvents_cols : List ColumnDef :=
  [textPK "id", textNotNull "date", textNotNull "title",
   textNullable "time", textNotNull "workspace_id"]

/-- Columns of the kanban table as created by v1. -/
def kanban_cols : List ColumnDef :=
  [textPK "workspace_id", textNotNull "columns"]

/-- Columns of the settings table as created by v1. -/
def settings_cols : List ColumnDef :=
  [textPK "key", textNullable "value"]

/-- The v1 script: six CREATE TABLE IF NOT EXISTS statements, in source
order. -/
def v1_sql : List Stmt :=
  [Stmt.createTableIfNotExists "workspaces" workspaces_cols,
   Stmt.createTableIfNotExists "folders" folders_cols,
   Stmt.createTableIfNotExists "notes" notes_cols,
   Stmt.createTableIfNotExists "calendarEvents" calendarEvents_cols,
   Stmt.createTableIfNotExists "kanban" kanban_cols,
   Stmt.createTableIfNotExists "settings" settings_cols]

/-- The v2 script: four unguarded ALTER TABLE ADD COLUMN statements on
calendarEvents. -/
def v2_sql : List Stmt :=
  [Stmt.alterTableAddColumn "calendarEvents" (textNullable "repeat"),
   Stmt.alterTableAddColumn "calendarEvents" (textNullable "repeat_on"),
   Stmt.alterTableAddColumn "calendarEvents" (textNullable "repeat_end"),
   Stmt.alterTableAddColumn "calendarEvents" (textNullable "exceptions")]

/-- The v3 script: one unguarded ALTER TABLE ADD COLUMN statement on
calendarEvents. -/
def v3_sql : List Stmt :=
  [Stmt.alterTableAddColumn "calendarEvents" (textNullable "color")]

/-- Embedding of fn get_migrations() of src/src-tauri/src/main.rs: a
nullary pure function returning the literal list of three migrations.
The Unit argument mirrors the invocation of the nullary Rust fn. -/
def get_migrations (_u : Unit) : List Migration :=
  [⟨1, "create_initial_tables", v1_sql, MigrationKind.Up⟩,
   ⟨2, "add_calendar_repeat_fields", v2_sql, MigrationKind.Up⟩,
   ⟨3, "add_calendar_event_color", v3_sql, MigrationKind.Up⟩]

/-- Apply a list of migrations in list order, as the runner does for a
fresh database (marker 0: every migration is pending). -/
def applyMigrations (db : Schema) : List Migration → Except SqlError Schema
  | [] => Except.ok db
  | m :: ms => Except.bind (applyScript db m.sql) (fun db2 => applyMigrations db2 ms)

/-- Embedding of the two add_migrations calls in fn main: each logical
database identifier paired with the migration list registered for it. -/
def main_registrations : List (String × List Migration) :=
  [("sqlite:neuronotes.db", get_migrations ()),
   ("sqlite:neuronotes_dev.db", get_migrations ())]

/-- The migration list registered for a given database identifier
(empty when the identifier is not registered). -/
def registered (dbName : String) : List Migration :=
  (((main_registrations.find? (fun p => p.1 == dbName)).map Prod.snd)).getD []

/-- The schema after applying v1 to an empty database: the six tables in
creation order. -/
def schemaAfterV1 : Schema :=
  [⟨"workspaces", workspaces_cols⟩,
   ⟨"folders", folders_cols⟩,
   ⟨"notes", notes_cols⟩,
   ⟨"calendarEvents", calendarEvents_cols⟩,
   ⟨"kanban", kanban_cols⟩,
   ⟨"settings", settings_cols⟩]

/-- The schema after applying v1 then v2 to an empty database. -/
def schemaAfterV2 : Schema :=
  [⟨"workspaces", workspaces_cols⟩,
   ⟨"folders", folders_cols⟩,
   ⟨"notes", notes_cols⟩,
   ⟨"calendarEvents", calendarEvents_cols ++
      [textNullable "repeat", textNullable "repeat_on",
       textNullable "repeat_end", textNullable "exceptions"]⟩,
   ⟨"kanban", kanban_cols⟩,
   ⟨"settings", settings_cols⟩]

/-- The schema after applying v1, v2 and v3 to an empty database. -/
def finalSchema : Schema :=
  [⟨"workspaces", workspaces_cols⟩,
   ⟨"folders", folders_cols⟩,
   ⟨"notes", notes_cols⟩,
   ⟨"calendarEvents", calendarEvents_cols ++
      [textNullable "repeat", textNullable "repeat_on",
       textNullable "repeat_end", textNullable "exceptions",
       textNullable "color"]⟩,
   ⟨"kanban", kanban_cols⟩,
   ⟨"settings", settings_cols⟩]

/-- Forget everything but table names and column names. -/
def schemaShape (db : Schema) : List (String × List String) :=
  db.map (fun t => (t.name, t.cols.map (fun c => c.name)))

/-- Modelled from the spec: the table/column enumeration of spec
section 6 (names only, in the order of that table). -/
def spec_section6_shape : List (String × List String) :=
  [("workspaces", ["id", "name", "order"]),
   ("folders", ["id", "name", "workspace_id", "order"]),
   ("notes", ["id", "title", "content_html", "updated_at", "workspace_id",
     "folder_id", "order", "type", "spreadsheet"]),
   ("calendarEvents", ["id", "date", "title", "time", "workspace_id",
     "repeat", "repeat_on", "repeat_end", "exceptions", "color"]),
   ("kanban", ["workspace_id", "columns"]),
   ("settings", ["key", "value"])]

/-- Error raised when a row violates a NOT NULL constraint. -/
inductive InsertError where
  | notNullViolation (col : String)
  deriving DecidableEq

/-- Value a named assignment list supplies for a column, if any. -/
def lookupAssign (as : List (String × SqlValue)) (n : String) : Option SqlValue :=
  (as.find? (fun p => p.1 == n)).map Prod.snd

/-- SQLite semantics of an INSERT with named columns, restricted to the
NOT NULL / DEFAULT behaviour: an omitted column takes its declared
default (NULL when there is none), and a NOT NULL column whose resulting
value is NULL is rejected. -/
def insertRow : List ColumnDef → List (String × SqlValue) →
    Except InsertError (List (String × SqlValue))
  | [], _ => Except.ok []
  | c :: cs, as =>
      let v : SqlValue :=
        match lookupAssign as c.name with
        | some w => w
        | none =>
            match c.dflt with
            | some d => d
            | none => SqlValue.null
      if c.notNull && (v == SqlValue.null) then
        Except.error (InsertError.notNullViolation c.name)
      else
        Except.map (fun row => (c.name, v) :: row) (insertRow cs as)

/-- C1: applying the three migrations of get_migrations in ascending
version order (v1 then v2 then v3) to an empty database succeeds, and
the resulting schema has exactly the six tables and column sets of spec
section 6; in particular calendarEvents ends with exactly the columns
id, date, title, time, workspace_id, repeat, repeat_on, repeat_end,
exceptions, color. -/
theorem migrations_from_empty_match_spec_section6 :
    applyMigrations [] (get_migrations ()) = Except.ok finalSchema ∧
    schemaShape finalSchema = spec_section6_shape := ⟨rfl, rfl⟩

/-- C2: get_migrations returns exactly three records with versions
1, 2, 3, in ascending order starting at 1, strictly increasing, with no
duplicates. -/
theorem migration_versions_strictly_increasing :
    (get_migrations ()).map Migration.version = [1, 2, 3] ∧
    List.Pairwise (fun a b => a < b) ((get_migrations ()).map Migration.version) ∧
    ((get_migrations ()).map Migration.version).Nodup := by
  refine ⟨rfl, ?_, ?_⟩ <;> decide

/-- C3: applying the v1 script to an empty database succeeds, and
applying it a second time to the resulting database (where v1 was
already applied) succeeds again and leaves the schema unchanged, because
every CREATE TABLE of v1 carries IF NOT EXISTS. -/
theorem v1_idempotent :
    applyScript [] v1_sql = Except.ok schemaAfterV1 ∧
    applyScript schemaAfterV1 v1_sql = Except.ok schemaAfterV1 := ⟨rfl, rfl⟩

/-- C4: applying v2 then v3 to the schema obtained by applying v1 to an
empty database yields exactly the schema obtained by applying v1, v2, v3
in order from an empty database. -/
theorem v2_v3_from_v1_checkpoint_converges :
    applyScript [] v1_sql = Except.ok schemaAfterV1 ∧
    Except.bind (applyScript schemaAfterV1 v2_sql)
      (fun s => applyScript s v3_sql) = applyMigrations [] (get_migrations ()) ∧
    applyMigrations [] (get_migrations ()) = Except.ok finalSchema :=
  ⟨rfl, rfl, rfl⟩

/-- C5: the migration sequence registered for the production identifier
equals the one registered for the development identifier, and both are
the list returned by get_migrations. -/
theorem prod_and_dev_registered_same_sequence :
    registered "sqlite:neuronotes.db" = registered "sqlite:neuronotes_dev.db" ∧
    registered "sqlite:neuronotes.db" = get_migrations () := ⟨rfl, rfl⟩

/-- C6: the two database identifiers registered in main are the distinct
strings sqlite:neuronotes.db and sqlite:neuronotes_dev.db, so the two
logical databases never share a physical file path. -/
theorem prod_dev_identifiers_distinct :
    main_registrations.map Prod.fst =
      ["sqlite:neuronotes.db", "sqlite:neuronotes_dev.db"] ∧
    (main_registrations.map Prod.fst).Nodup := by
  refine ⟨rfl, ?_⟩; decide

/-- C7: get_migrations is pure and deterministic: any two invocations
return equal sequences (hence the same length and equal version,
description, script and kind at every position).  The embedding is a
total Lean function, reflecting that the source body only constructs
literal data and performs no I/O. -/
theorem get_migrations_deterministic :
    ∀ u v : Unit, get_migrations u = get_migrations v :=
  fun _ _ => rfl

/-- C8: every record of get_migrations has kind Up, and the Migration
record type has no field for a down script, so the sequence is
forward-only. -/
theorem all_migrations_forward_only :
    (get_migrations ()).map Migration.kind =
      [MigrationKind.Up, MigrationKind.Up, MigrationKind.Up] := rfl

/-- C9: v2 and v3 are not idempotent: applying the v2 script to a schema
whose calendarEvents table already has the v2 columns fails with a
duplicate-column error on the first added column, and likewise applying
v3 when color is already present, because the ALTER TABLE ADD COLUMN
statements carry no existence guard. -/
theorem v2_v3_not_idempotent :
    applyScript schemaAfterV1 v2_sql = Except.ok schemaAfterV2 ∧
    applyScript schemaAfterV2 v2_sql =
      Except.error (SqlError.duplicateColumn "calendarEvents" "repeat") ∧
    applyScript finalSchema v3_sql =
      Except.error (SqlError.duplicateColumn "calendarEvents" "color") :=
  ⟨rfl, rfl, rfl⟩

/-- C10: in v1, workspaces.order, folders.order, notes.order and
notes.type are declared NOT NULL in addition to having a default, so an
insert supplying an explicit NULL for any of them is rejected, while an
insert omitting the column succeeds and fills in the default. -/
theorem v1_defaulted_columns_also_not_null :
    workspaces_cols.find? (fun c => c.name == "order") =
      some ⟨"order", ColType.integer, false, true, some (SqlValue.int 0)⟩ ∧
    folders_cols.find? (fun c => c.name == "order") =
      some ⟨"order", ColType.integer, false, true, some (SqlValue.int 0)⟩ ∧
    notes_cols.find? (fun c => c.name == "order") =
      some ⟨"order", ColType.integer, false, true, some (SqlValue.int 0)⟩ ∧
    notes_cols.find? (fun c => c.name == "type") =
      some ⟨"type", ColType.text, false, true, some (SqlValue.text "text")⟩ ∧
    insertRow workspaces_cols
      [("id", SqlValue.text "w1"), ("name", SqlValue.text "Home"),
       ("order", SqlValue.null)] =
      Except.error (InsertError.notNullViolation "order") ∧
    insertRow workspaces_cols
      [("id", SqlValue.text "w1"), ("name", SqlValue.text "Home")] =
      Except.ok [("id", SqlValue.text "w1"), ("name", SqlValue.text "Home"),
        ("order", SqlValue.int 0)] ∧
    insertRow folders_cols
      [("id", SqlValue.text "f1"), ("name", SqlValue.text "F"),
       ("workspace_id", SqlValue.text "w1"), ("order", SqlValue.null)] =
      Except.error (InsertError.notNullViolation "order") ∧
    insertRow folders_cols
      [("id", SqlValue.text "f1"), ("name", SqlValue.text "F"),
       ("workspace_id", SqlValue.text "w1")] =
      Except.ok [("id", SqlValue.text "f1"), ("name", SqlValue.text "F"),
        ("workspace_id", SqlValue.text "w1"), ("order", SqlValue.int 0)] ∧
    insertRow notes_cols
      [("id", SqlValue.text "n1"), ("title", SqlValue.text "T"),
       ("updated_at", SqlValue.int 5), ("workspace_id", SqlValue.text "w1"),
       ("order", SqlValue.null)] =
      Except.error (InsertError.notNullViolation "order") ∧
    insertRow notes_cols
      [("id", SqlValue.text "n1"), ("title", SqlValue.text "T"),
       ("updated_at", SqlValue.int 5), ("workspace_id", SqlValue.text "w1"),
       ("order", SqlValue.int 1), ("type", SqlValue.null)] =
      Except.error (InsertError.notNullViolation "type") ∧
    insertRow notes_cols
      [("id", SqlValue.text "n1"), ("title", SqlValue.text "T"),
       ("updated_at", SqlValue.int 5), ("workspace_id", SqlValue.text "w1")] =
      Except.ok [("id", SqlValue.text "n1"), ("title", SqlValue.text "T"),
        ("content_html", SqlValue.null), ("updated_at", SqlValue.int 5),
        ("workspace_id", SqlValue.text "w1"), ("folder_id", SqlValue.null),
        ("order", SqlValue.int 0), ("type", SqlValue.text "text"),
        ("spreadsheet", SqlValue.null)] :=
  ⟨rfl, rfl, rfl, rfl, rfl, rfl, rfl, rfl, rfl, rfl, rfl⟩

end NeuroNotes
